import Mathlib

/-!
# Via Labs SDK — verification of the canonical message codec, hasher,
# signature assembly, retry policy and deterministic address resolution

Shallow embedding of the TypeScript SDK (`src/encoding.ts`, `src/signatures.ts`,
`src/pdas.ts`, `src/sdk.ts`, `src/types.ts`).  Byte buffers are `List Nat`
(each entry a byte value), `BN` big numbers are `Nat` (the SDK validates them
non-negative), and thrown `Error`s are the `Except String` error channel with
the exact message strings the source builds.
-/

namespace ViaLabs

/-! ## Little-endian fixed-width integers (BN.toArrayLike / new BN(bytes, le)) -/

/-- `n.toArrayLike(Buffer, le, w)`: the `w` little-endian base-256 digits of `n`.
(For `n < 256 ^ w`, which every claim assumes, this matches `bn.js`; larger
values make `bn.js` throw instead.) -/
def natToLE : Nat → Nat → List Nat
  | 0, _ => []
  | w + 1, n => n % 256 :: natToLE w (n / 256)

/-- `new BN(bytes, le)`: read a little-endian byte list back to a number. -/
def leToNat : List Nat → Nat
  | [] => 0
  | b :: bs => b + 256 * leToNat bs

theorem natToLE_length (w n : Nat) : (natToLE w n).length = w := by
  induction w generalizing n with
  | zero => rfl
  | succ k ih => simp [natToLE, ih]

theorem leToNat_natToLE (w n : Nat) (h : n < 256 ^ w) :
    leToNat (natToLE w n) = n := by
  induction w generalizing n with
  | zero =>
    have : n = 0 := by simpa using h
    simp [this, natToLE, leToNat]
  | succ k ih =>
    have hdiv : n / 256 < 256 ^ k := by
      rw [Nat.div_lt_iff_lt_mul (by norm_num : 0 < 256)]
      calc n < 256 ^ (k + 1) := h
        _ = 256 ^ k * 256 := by rw [Nat.pow_succ]
    simp only [natToLE, leToNat, ih (n / 256) hdiv]
    omega

/-! ## Canonical message codec (`src/encoding.ts`) -/

def MAX_SENDER_SIZE : Nat := 64
def MAX_RECIPIENT_SIZE : Nat := 64
def MAX_ON_CHAIN_DATA : Nat := 1024
def MAX_OFF_CHAIN_DATA : Nat := 1024

/-- The decoded message record (`DecodedViaMessage` in `encoding.ts`). -/
structure DecodedViaMessage where
  txId : Nat
  sourceChainId : Nat
  destChainId : Nat
  sender : List Nat
  recipient : List Nat
  onChainData : List Nat
  offChainData : List Nat
deriving DecidableEq

/-- `encodeLengthPrefixed`: a 4-byte little-endian length, then the data. -/
def encodeLengthPrefixed (data : List Nat) : List Nat :=
  natToLE 4 data.length ++ data

/-- `encodeViaMessage` (`encoding.ts` lines 41-83): validates the four
variable-length fields, then concatenates the fixed-width and
length-prefixed encodings.  A validation failure is the thrown `Error`. -/
def encodeViaMessage (txId sourceChainId destChainId : Nat)
    (sender recipient onChainData offChainData : List Nat) :
    Except String (List Nat) :=
  if sender.length > MAX_SENDER_SIZE then
    .error ("Sender too long: " ++ toString sender.length ++
      " bytes (max " ++ toString MAX_SENDER_SIZE ++ ")")
  else if recipient.length > MAX_RECIPIENT_SIZE then
    .error ("Recipient too long: " ++ toString recipient.length ++
      " bytes (max " ++ toString MAX_RECIPIENT_SIZE ++ ")")
  else if onChainData.length > MAX_ON_CHAIN_DATA then
    .error ("On-chain data too large: " ++ toString onChainData.length ++
      " bytes (max " ++ toString MAX_ON_CHAIN_DATA ++ ")")
  else if offChainData.length > MAX_OFF_CHAIN_DATA then
    .error ("Off-chain data too large: " ++ toString offChainData.length ++
      " bytes (max " ++ toString MAX_OFF_CHAIN_DATA ++ ")")
  else
    .ok (natToLE 16 txId ++ natToLE 8 sourceChainId ++ natToLE 8 destChainId ++
      encodeLengthPrefixed sender ++ encodeLengthPrefixed recipient ++
      encodeLengthPrefixed onChainData ++ encodeLengthPrefixed offChainData)

/-- The `readBytes` helper inside `decodeViaMessage` (lines 94-103):
`encoded.slice(offset, offset + length)` guarded by a bounds check. -/
def readBytes (encoded : List Nat) (offset length : Nat) (fieldName : String) :
    Except String (List Nat) :=
  if offset + length > encoded.length then
    .error ("Buffer too short: cannot read " ++ fieldName ++ " (need " ++
      toString length ++ " bytes at offset " ++ toString offset ++ ", have " ++
      toString (encoded.length - offset) ++ ")")
  else
    .ok ((encoded.drop offset).take length)

/-- `decodeLengthPrefixed` (`encoding.ts` lines 207-225). -/
def decodeLengthPrefixed (buffer : List Nat) (offset : Nat) (fieldName : String) :
    Except String (List Nat) :=
  if offset + 4 > buffer.length then
    .error ("Buffer too short: cannot read " ++ fieldName ++
      " length prefix at offset " ++ toString offset)
  else
    let length := leToNat ((buffer.drop offset).take 4)
    let dataOffset := offset + 4
    if dataOffset + length > buffer.length then
      .error ("Buffer too short: cannot read " ++ fieldName ++ " data (need " ++
        toString length ++ " bytes at offset " ++ toString dataOffset ++
        ", have " ++ toString (buffer.length - dataOffset) ++ ")")
    else
      .ok ((buffer.drop dataOffset).take length)

/-- `decodeViaMessage` (`encoding.ts` lines 90-144).  The mutable `offset`
of the source is threaded explicitly: 0, 16, 24, 32, then
`previous + 4 + field.length` after each length-prefixed field; the final
check rejects buffers that were not consumed exactly. -/
def decodeViaMessage (encoded : List Nat) : Except String DecodedViaMessage :=
  match readBytes encoded 0 16 "txId" with
  | .error e => .error e
  | .ok txIdBytes =>
  match readBytes encoded 16 8 "sourceChainId" with
  | .error e => .error e
  | .ok sourceChainIdBytes =>
  match readBytes encoded 24 8 "destChainId" with
  | .error e => .error e
  | .ok destChainIdBytes =>
  match decodeLengthPrefixed encoded 32 "sender" with
  | .error e => .error e
  | .ok sender =>
  match decodeLengthPrefixed encoded (32 + (4 + sender.length)) "recipient" with
  | .error e => .error e
  | .ok recipient =>
  match decodeLengthPrefixed encoded
      (32 + (4 + sender.length) + (4 + recipient.length)) "onChainData" with
  | .error e => .error e
  | .ok onChainData =>
  match decodeLengthPrefixed encoded
      (32 + (4 + sender.length) + (4 + recipient.length) +
        (4 + onChainData.length)) "offChainData" with
  | .error e => .error e
  | .ok offChainData =>
    let offset := 32 + (4 + sender.length) + (4 + recipient.length) +
      (4 + onChainData.length) + (4 + offChainData.length)
    if offset ≠ encoded.length then
      .error ("Buffer has extra data: decoded " ++ toString offset ++
        " bytes but buffer is " ++ toString encoded.length ++ " bytes")
    else
      .ok { txId := leToNat txIdBytes
            sourceChainId := leToNat sourceChainIdBytes
            destChainId := leToNat destChainIdBytes
            sender := sender
            recipient := recipient
            onChainData := onChainData
            offChainData := offChainData }

/-! ## Round-trip lemmas -/

theorem readBytes_append (pre xs rest : List Nat) (off n : Nat) (f : String)
    (hoff : off = pre.length) (hn : n = xs.length) :
    readBytes (pre ++ (xs ++ rest)) off n f = .ok xs := by
  subst hoff; subst hn
  unfold readBytes
  rw [if_neg (by simp)]
  rw [List.drop_left, List.take_left]

theorem decodeLengthPrefixed_append (pre data rest : List Nat) (off : Nat)
    (f : String) (hoff : off = pre.length) (hlt : data.length < 2 ^ 32) :
    decodeLengthPrefixed (pre ++ (encodeLengthPrefixed data ++ rest)) off f =
      .ok data := by
  subst hoff
  have h256 : data.length < 256 ^ 4 := by norm_num at hlt ⊢; omega
  unfold decodeLengthPrefixed encodeLengthPrefixed
  have hbuf : pre ++ ((natToLE 4 data.length ++ data) ++ rest) =
      pre ++ (natToLE 4 data.length ++ (data ++ rest)) := by
    simp [List.append_assoc]
  rw [hbuf]
  rw [if_neg (by simp [natToLE_length])]
  have hdrop : (pre ++ (natToLE 4 data.length ++ (data ++ rest))).drop pre.length =
      natToLE 4 data.length ++ (data ++ rest) := List.drop_left pre _
  have htake : (natToLE 4 data.length ++ (data ++ rest)).take 4 =
      natToLE 4 data.length := List.take_left' (natToLE_length 4 data.length)
  simp only [hdrop, htake, leToNat_natToLE 4 data.length h256]
  rw [if_neg (by simp [natToLE_length]; omega)]
  have hbuf2 : pre ++ (natToLE 4 data.length ++ (data ++ rest)) =
      (pre ++ natToLE 4 data.length) ++ (data ++ rest) := by
    simp [List.append_assoc]
  rw [hbuf2]
  have hlen2 : (pre ++ natToLE 4 data.length).length = pre.length + 4 := by
    simp [natToLE_length]
  rw [List.drop_left' hlen2, List.take_left' rfl]

/-- The byte sequence produced by a successful `encodeViaMessage` (its `ok`
branch, lines 64-82 of `encoding.ts`). -/
def encodeViaMessageRaw (txId sourceChainId destChainId : Nat)
    (sender recipient onChainData offChainData : List Nat) : List Nat :=
  natToLE 16 txId ++ natToLE 8 sourceChainId ++ natToLE 8 destChainId ++
    encodeLengthPrefixed sender ++ encodeLengthPrefixed recipient ++
    encodeLengthPrefixed onChainData ++ encodeLengthPrefixed offChainData

theorem encodeViaMessage_ok (txId sourceChainId destChainId : Nat)
    (sender recipient onChainData offChainData : List Nat)
    (hse : sender.length ≤ 64) (hre : recipient.length ≤ 64)
    (hon : onChainData.length ≤ 1024) (hoff : offChainData.length ≤ 1024) :
    encodeViaMessage txId sourceChainId destChainId
      sender recipient onChainData offChainData =
      .ok (encodeViaMessageRaw txId sourceChainId destChainId
        sender recipient onChainData offChainData) := by
  have c1 : ¬ sender.length > MAX_SENDER_SIZE := by
    simp only [MAX_SENDER_SIZE]; omega
  have c2 : ¬ recipient.length > MAX_RECIPIENT_SIZE := by
    simp only [MAX_RECIPIENT_SIZE]; omega
  have c3 : ¬ onChainData.length > MAX_ON_CHAIN_DATA := by
    simp only [MAX_ON_CHAIN_DATA]; omega
  have c4 : ¬ offChainData.length > MAX_OFF_CHAIN_DATA := by
    simp only [MAX_OFF_CHAIN_DATA]; omega
  simp only [encodeViaMessage, encodeViaMessageRaw, if_neg c1, if_neg c2,
    if_neg c3, if_neg c4]

theorem decodeViaMessage_raw_append (txId sourceChainId destChainId : Nat)
    (sender recipient onChainData offChainData extra : List Nat)
    (ht : txId < 2 ^ 128) (hs : sourceChainId < 2 ^ 64) (hd : destChainId < 2 ^ 64)
    (hse : sender.length < 2 ^ 32) (hre : recipient.length < 2 ^ 32)
    (hon : onChainData.length < 2 ^ 32) (hoff : offChainData.length < 2 ^ 32) :
    (extra = [] →
      decodeViaMessage (encodeViaMessageRaw txId sourceChainId destChainId
        sender recipient onChainData offChainData ++ extra) =
        .ok ⟨txId, sourceChainId, destChainId,
          sender, recipient, onChainData, offChainData⟩) ∧
    (extra ≠ [] →
      decodeViaMessage (encodeViaMessageRaw txId sourceChainId destChainId
        sender recipient onChainData offChainData ++ extra) =
        .error ("Buffer has extra data: decoded " ++
          toString (encodeViaMessageRaw txId sourceChainId destChainId
            sender recipient onChainData offChainData).length ++
          " bytes but buffer is " ++
          toString ((encodeViaMessageRaw txId sourceChainId destChainId
            sender recipient onChainData offChainData).length + extra.length) ++
          " bytes")) := by
  have h1 : readBytes (encodeViaMessageRaw txId sourceChainId destChainId
      sender recipient onChainData offChainData ++ extra) 0 16 "txId" =
      .ok (natToLE 16 txId) := by
    have hsh : encodeViaMessageRaw txId sourceChainId destChainId
        sender recipient onChainData offChainData ++ extra =
        [] ++ (natToLE 16 txId ++
          (natToLE 8 sourceChainId ++ natToLE 8 destChainId ++
            encodeLengthPrefixed sender ++ encodeLengthPrefixed recipient ++
            encodeLengthPrefixed onChainData ++
            encodeLengthPrefixed offChainData ++ extra)) := by
      simp [encodeViaMessageRaw, List.append_assoc]
    rw [hsh]
    exact readBytes_append _ _ _ _ _ _ rfl (natToLE_length 16 txId).symm
  have h2 : readBytes (encodeViaMessageRaw txId sourceChainId destChainId
      sender recipient onChainData offChainData ++ extra) 16 8 "sourceChainId" =
      .ok (natToLE 8 sourceChainId) := by
    have hsh : encodeViaMessageRaw txId sourceChainId destChainId
        sender recipient onChainData offChainData ++ extra =
        natToLE 16 txId ++ (natToLE 8 sourceChainId ++
          (natToLE 8 destChainId ++
            encodeLengthPrefixed sender ++ encodeLengthPrefixed recipient ++
            encodeLengthPrefixed onChainData ++
            encodeLengthPrefixed offChainData ++ extra)) := by
      simp [encodeViaMessageRaw, List.append_assoc]
    rw [hsh]
    exact readBytes_append _ _ _ _ _ _ (natToLE_length 16 txId).symm
      (natToLE_length 8 sourceChainId).symm
  have h3 : readBytes (encodeViaMessageRaw txId sourceChainId destChainId
      sender recipient onChainData offChainData ++ extra) 24 8 "destChainId" =
      .ok (natToLE 8 destChainId) := by
    have hsh : encodeViaMessageRaw txId sourceChainId destChainId
        sender recipient onChainData offChainData ++ extra =
        (natToLE 16 txId ++ natToLE 8 sourceChainId) ++ (natToLE 8 destChainId ++
          (encodeLengthPrefixed sender ++ encodeLengthPrefixed recipient ++
            encodeLengthPrefixed onChainData ++
            encodeLengthPrefixed offChainData ++ extra)) := by
      simp [encodeViaMessageRaw, List.append_assoc]
    rw [hsh]
    exact readBytes_append _ _ _ _ _ _ (by simp [natToLE_length])
      (natToLE_length 8 destChainId).symm
  have h4 : decodeLengthPrefixed (encodeViaMessageRaw txId sourceChainId
      destChainId sender recipient onChainData offChainData ++ extra) 32
      "sender" = .ok sender := by
    have hsh : encodeViaMessageRaw txId sourceChainId destChainId
        sender recipient onChainData offChainData ++ extra =
        (natToLE 16 txId ++ natToLE 8 sourceChainId ++ natToLE 8 destChainId) ++
          (encodeLengthPrefixed sender ++
            (encodeLengthPrefixed recipient ++ encodeLengthPrefixed onChainData ++
              encodeLengthPrefixed offChainData ++ extra)) := by
      simp [encodeViaMessageRaw, List.append_assoc]
    rw [hsh]
    exact decodeLengthPrefixed_append _ _ _ _ _ (by simp [natToLE_length]) hse
  have h5 : decodeLengthPrefixed (encodeViaMessageRaw txId sourceChainId
      destChainId sender recipient onChainData offChainData ++ extra)
      (32 + (4 + sender.length)) "recipient" = .ok recipient := by
    have hsh : encodeViaMessageRaw txId sourceChainId destChainId
        sender recipient onChainData offChainData ++ extra =
        (natToLE 16 txId ++ natToLE 8 sourceChainId ++ natToLE 8 destChainId ++
          encodeLengthPrefixed sender) ++
          (encodeLengthPrefixed recipient ++
            (encodeLengthPrefixed onChainData ++
              encodeLengthPrefixed offChainData ++ extra)) := by
      simp [encodeViaMessageRaw, List.append_assoc]
    rw [hsh]
    exact decodeLengthPrefixed_append _ _ _ _ _
      (by simp [natToLE_length, encodeLengthPrefixed]; omega) hre
  have h6 : decodeLengthPrefixed (encodeViaMessageRaw txId sourceChainId
      destChainId sender recipient onChainData offChainData ++ extra)
      (32 + (4 + sender.length) + (4 + recipient.length)) "onChainData" =
      .ok onChainData := by
    have hsh : encodeViaMessageRaw txId sourceChainId destChainId
        sender recipient onChainData offChainData ++ extra =
        (natToLE 16 txId ++ natToLE 8 sourceChainId ++ natToLE 8 destChainId ++
          encodeLengthPrefixed sender ++ encodeLengthPrefixed recipient) ++
          (encodeLengthPrefixed onChainData ++
            (encodeLengthPrefixed offChainData ++ extra)) := by
      simp [encodeViaMessageRaw, List.append_assoc]
    rw [hsh]
    exact decodeLengthPrefixed_append _ _ _ _ _
      (by simp [natToLE_length, encodeLengthPrefixed]; omega) hon
  have h7 : decodeLengthPrefixed (encodeViaMessageRaw txId sourceChainId
      destChainId sender recipient onChainData offChainData ++ extra)
      (32 + (4 + sender.length) + (4 + recipient.length) +
        (4 + onChainData.length)) "offChainData" = .ok offChainData := by
    have hsh : encodeViaMessageRaw txId sourceChainId destChainId
        sender recipient onChainData offChainData ++ extra =
        (natToLE 16 txId ++ natToLE 8 sourceChainId ++ natToLE 8 destChainId ++
          encodeLengthPrefixed sender ++ encodeLengthPrefixed recipient ++
          encodeLengthPrefixed onChainData) ++
          (encodeLengthPrefixed offChainData ++ extra) := by
      simp [encodeViaMessageRaw, List.append_assoc]
    rw [hsh]
    exact decodeLengthPrefixed_append _ _ _ _ _
      (by simp [natToLE_length, encodeLengthPrefixed]; omega) hoff
  have hlen : 32 + (4 + sender.length) + (4 + recipient.length) +
      (4 + onChainData.length) + (4 + offChainData.length) =
      (encodeViaMessageRaw txId sourceChainId destChainId
        sender recipient onChainData offChainData).length := by
    simp [encodeViaMessageRaw, encodeLengthPrefixed, natToLE_length]
    omega
  have h256t : txId < 256 ^ 16 := by
    have he : (256 : Nat) ^ 16 = 2 ^ 128 := by norm_num
    omega
  have h256s : sourceChainId < 256 ^ 8 := by
    have he : (256 : Nat) ^ 8 = 2 ^ 64 := by norm_num
    omega
  have h256d : destChainId < 256 ^ 8 := by
    have he : (256 : Nat) ^ 8 = 2 ^ 64 := by norm_num
    omega
  constructor
  · intro hx
    subst hx
    simp only [decodeViaMessage, h1, h2, h3, h4, h5, h6, h7]
    rw [if_neg (by simp only [List.append_nil]; omega)]
    simp [leToNat_natToLE 16 txId h256t, leToNat_natToLE 8 sourceChainId h256s,
      leToNat_natToLE 8 destChainId h256d]
  · intro hx
    simp only [decodeViaMessage, h1, h2, h3, h4, h5, h6, h7]
    have hpos : 0 < extra.length := List.length_pos.mpr hx
    have hne : 32 + (4 + sender.length) + (4 + recipient.length) +
        (4 + onChainData.length) + (4 + offChainData.length) ≠
        (encodeViaMessageRaw txId sourceChainId destChainId
          sender recipient onChainData offChainData ++ extra).length := by
      simp only [List.length_append]
      omega
    rw [if_pos hne, hlen, List.length_append]

theorem decodeViaMessage_raw (txId sourceChainId destChainId : Nat)
    (sender recipient onChainData offChainData : List Nat)
    (ht : txId < 2 ^ 128) (hs : sourceChainId < 2 ^ 64) (hd : destChainId < 2 ^ 64)
    (hse : sender.length < 2 ^ 32) (hre : recipient.length < 2 ^ 32)
    (hon : onChainData.length < 2 ^ 32) (hoff : offChainData.length < 2 ^ 32) :
    decodeViaMessage (encodeViaMessageRaw txId sourceChainId destChainId
      sender recipient onChainData offChainData) =
      .ok ⟨txId, sourceChainId, destChainId,
        sender, recipient, onChainData, offChainData⟩ := by
  have h := (decodeViaMessage_raw_append txId sourceChainId destChainId
    sender recipient onChainData offChainData [] ht hs hd hse hre hon hoff).1 rfl
  simpa using h

/-- C1: for every valid message (txId below 2^128, chain ids below 2^64,
sender and recipient at most 64 bytes, data fields at most 1024 bytes),
`encodeViaMessage` succeeds and `decodeViaMessage` of its output returns the
message unchanged field by field. -/
theorem C1_roundtrip (txId sourceChainId destChainId : Nat)
    (sender recipient onChainData offChainData : List Nat)
    (ht : txId < 2 ^ 128) (hs : sourceChainId < 2 ^ 64) (hd : destChainId < 2 ^ 64)
    (hse : sender.length ≤ 64) (hre : recipient.length ≤ 64)
    (hon : onChainData.length ≤ 1024) (hoff : offChainData.length ≤ 1024) :
    ∃ enc, encodeViaMessage txId sourceChainId destChainId
        sender recipient onChainData offChainData = .ok enc ∧
      decodeViaMessage enc =
        .ok ⟨txId, sourceChainId, destChainId,
          sender, recipient, onChainData, offChainData⟩ := by
  refine ⟨_, encodeViaMessage_ok txId sourceChainId destChainId
    sender recipient onChainData offChainData hse hre hon hoff, ?_⟩
  exact decodeViaMessage_raw txId sourceChainId destChainId
    sender recipient onChainData offChainData ht hs hd
    (by omega) (by omega) (by omega) (by omega)

/-- Witness for C1: the round trip at the all-empty message and at a message
whose every variable field has exactly its maximum length. -/
theorem C1_roundtrip_witness :
    (∃ enc, encodeViaMessage 0 0 0 [] [] [] [] = .ok enc ∧
      decodeViaMessage enc = .ok ⟨0, 0, 0, [], [], [], []⟩) ∧
    (∃ enc,
      encodeViaMessage (2 ^ 128 - 1) (2 ^ 64 - 1) (2 ^ 64 - 1)
        (List.replicate 64 255) (List.replicate 64 1)
        (List.replicate 1024 7) (List.replicate 1024 9) = .ok enc ∧
      decodeViaMessage enc =
        .ok ⟨2 ^ 128 - 1, 2 ^ 64 - 1, 2 ^ 64 - 1,
          List.replicate 64 255, List.replicate 64 1,
          List.replicate 1024 7, List.replicate 1024 9⟩) := by
  constructor
  · exact C1_roundtrip 0 0 0 [] [] [] [] (by norm_num) (by norm_num)
      (by norm_num) (by simp) (by simp) (by simp) (by simp)
  · exact C1_roundtrip (2 ^ 128 - 1) (2 ^ 64 - 1) (2 ^ 64 - 1)
      (List.replicate 64 255) (List.replicate 64 1)
      (List.replicate 1024 7) (List.replicate 1024 9)
      (Nat.sub_lt (by positivity) one_pos)
      (Nat.sub_lt (by positivity) one_pos)
      (Nat.sub_lt (by positivity) one_pos)
      (le_of_eq (List.length_replicate _ _)) (le_of_eq (List.length_replicate _ _))
      (le_of_eq (List.length_replicate _ _)) (le_of_eq (List.length_replicate _ _))

/-- C2: `encodeViaMessage` fails exactly when a variable-length field exceeds
its bound; each failure message names the offending field, the observed
length and the maximum; at exactly the bounds encoding succeeds; and a
successful encoding carries every byte of every field (output length is the
full 48-byte overhead plus the four field lengths, so nothing is truncated). -/
theorem C2_size_rejection (txId sourceChainId destChainId : Nat)
    (sender recipient onChainData offChainData : List Nat)
    (ht : txId < 2 ^ 128) (hs : sourceChainId < 2 ^ 64)
    (hd : destChainId < 2 ^ 64) :
    ((∃ enc, encodeViaMessage txId sourceChainId destChainId
        sender recipient onChainData offChainData = .ok enc) ↔
      (sender.length ≤ MAX_SENDER_SIZE ∧ recipient.length ≤ MAX_RECIPIENT_SIZE ∧
        onChainData.length ≤ MAX_ON_CHAIN_DATA ∧
        offChainData.length ≤ MAX_OFF_CHAIN_DATA)) ∧
    (sender.length > MAX_SENDER_SIZE →
      encodeViaMessage txId sourceChainId destChainId
        sender recipient onChainData offChainData =
        .error ("Sender too long: " ++ toString sender.length ++
          " bytes (max " ++ toString MAX_SENDER_SIZE ++ ")")) ∧
    (sender.length ≤ MAX_SENDER_SIZE → recipient.length > MAX_RECIPIENT_SIZE →
      encodeViaMessage txId sourceChainId destChainId
        sender recipient onChainData offChainData =
        .error ("Recipient too long: " ++ toString recipient.length ++
          " bytes (max " ++ toString MAX_RECIPIENT_SIZE ++ ")")) ∧
    (sender.length ≤ MAX_SENDER_SIZE → recipient.length ≤ MAX_RECIPIENT_SIZE →
      onChainData.length > MAX_ON_CHAIN_DATA →
      encodeViaMessage txId sourceChainId destChainId
        sender recipient onChainData offChainData =
        .error ("On-chain data too large: " ++ toString onChainData.length ++
          " bytes (max " ++ toString MAX_ON_CHAIN_DATA ++ ")")) ∧
    (sender.length ≤ MAX_SENDER_SIZE → recipient.length ≤ MAX_RECIPIENT_SIZE →
      onChainData.length ≤ MAX_ON_CHAIN_DATA →
      offChainData.length > MAX_OFF_CHAIN_DATA →
      encodeViaMessage txId sourceChainId destChainId
        sender recipient onChainData offChainData =
        .error ("Off-chain data too large: " ++ toString offChainData.length ++
          " bytes (max " ++ toString MAX_OFF_CHAIN_DATA ++ ")")) ∧
    ((sender.length ≤ MAX_SENDER_SIZE ∧ recipient.length ≤ MAX_RECIPIENT_SIZE ∧
        onChainData.length ≤ MAX_ON_CHAIN_DATA ∧
        offChainData.length ≤ MAX_OFF_CHAIN_DATA) →
      ∃ enc, encodeViaMessage txId sourceChainId destChainId
          sender recipient onChainData offChainData = .ok enc ∧
        enc.length = 48 + (sender.length + recipient.length +
          onChainData.length + offChainData.length)) := by
  have hok : ∀ h1 : sender.length ≤ 64, ∀ h2 : recipient.length ≤ 64,
      ∀ h3 : onChainData.length ≤ 1024, ∀ h4 : offChainData.length ≤ 1024,
      encodeViaMessage txId sourceChainId destChainId
        sender recipient onChainData offChainData =
        .ok (encodeViaMessageRaw txId sourceChainId destChainId
          sender recipient onChainData offChainData) :=
    fun h1 h2 h3 h4 => encodeViaMessage_ok _ _ _ _ _ _ _ h1 h2 h3 h4
  refine ⟨?_, ?_, ?_, ?_, ?_, ?_⟩
  · constructor
    · rintro ⟨enc, henc⟩
      unfold encodeViaMessage at henc
      split_ifs at henc with c1 c2 c3 c4 <;> cases henc
      exact ⟨Nat.not_lt.mp c1, Nat.not_lt.mp c2, Nat.not_lt.mp c3,
        Nat.not_lt.mp c4⟩
    · rintro ⟨h1, h2, h3, h4⟩
      simp only [MAX_SENDER_SIZE, MAX_RECIPIENT_SIZE, MAX_ON_CHAIN_DATA,
        MAX_OFF_CHAIN_DATA] at h1 h2 h3 h4
      exact ⟨_, hok h1 h2 h3 h4⟩
  · intro h1
    unfold encodeViaMessage
    rw [if_pos h1]
  · intro h1 h2
    unfold encodeViaMessage
    rw [if_neg (Nat.not_lt.mpr h1), if_pos h2]
  · intro h1 h2 h3
    unfold encodeViaMessage
    rw [if_neg (Nat.not_lt.mpr h1), if_neg (Nat.not_lt.mpr h2), if_pos h3]
  · intro h1 h2 h3 h4
    unfold encodeViaMessage
    rw [if_neg (Nat.not_lt.mpr h1), if_neg (Nat.not_lt.mpr h2),
      if_neg (Nat.not_lt.mpr h3), if_pos h4]
  · rintro ⟨h1, h2, h3, h4⟩
    simp only [MAX_SENDER_SIZE, MAX_RECIPIENT_SIZE, MAX_ON_CHAIN_DATA,
      MAX_OFF_CHAIN_DATA] at h1 h2 h3 h4
    refine ⟨_, hok h1 h2 h3 h4, ?_⟩
    simp [encodeViaMessageRaw, encodeLengthPrefixed, natToLE_length]
    omega

/-- Witness for C2: a 65-byte sender is rejected with the exact message, and
a message with every field exactly at its bound encodes successfully. -/
theorem C2_size_rejection_witness :
    encodeViaMessage 1 1 1 (List.replicate 65 0) [] [] [] =
      .error ("Sender too long: " ++ toString (List.replicate 65 0).length ++
        " bytes (max " ++ toString MAX_SENDER_SIZE ++ ")") ∧
    (∃ enc, encodeViaMessage 1 1 1 (List.replicate 64 0) (List.replicate 64 0)
        (List.replicate 1024 0) (List.replicate 1024 0) = .ok enc ∧
      enc.length = 48 + ((List.replicate 64 0).length +
        (List.replicate 64 0).length + (List.replicate 1024 0).length +
        (List.replicate 1024 0).length)) := by
  constructor
  · exact (C2_size_rejection 1 1 1 (List.replicate 65 0) [] [] []
      (by norm_num) (by norm_num) (by norm_num)).2.1
      (by rw [List.length_replicate]; decide)
  · exact (C2_size_rejection 1 1 1 (List.replicate 64 0) (List.replicate 64 0)
      (List.replicate 1024 0) (List.replicate 1024 0)
      (by norm_num) (by norm_num) (by norm_num)).2.2.2.2.2
      ⟨by rw [List.length_replicate]; decide,
        by rw [List.length_replicate]; decide,
        by rw [List.length_replicate]; decide,
        by rw [List.length_replicate]; decide⟩

/-- C3: the decoder consumes its input exactly.  A successful decode consumed
precisely the whole buffer; `readBytes` and `decodeLengthPrefixed` fail with
the buffer-too-short error exactly when fewer bytes remain than the field or
its length prefix declares (in particular any buffer shorter than the 16-byte
txId field is rejected); and appending any nonempty suffix to a valid
encoding makes the decoder fail with the extra-data error. -/
theorem C3_exact_consumption :
    (∀ (buf : List Nat) (m : DecodedViaMessage), decodeViaMessage buf = .ok m →
      32 + (4 + m.sender.length) + (4 + m.recipient.length) +
        (4 + m.onChainData.length) + (4 + m.offChainData.length) =
        buf.length) ∧
    (∀ (buf : List Nat) (off n : Nat) (f : String), off + n > buf.length →
      readBytes buf off n f =
        .error ("Buffer too short: cannot read " ++ f ++ " (need " ++
          toString n ++ " bytes at offset " ++ toString off ++ ", have " ++
          toString (buf.length - off) ++ ")")) ∧
    (∀ (buf : List Nat) (off : Nat) (f : String), off + 4 > buf.length →
      decodeLengthPrefixed buf off f =
        .error ("Buffer too short: cannot read " ++ f ++
          " length prefix at offset " ++ toString off)) ∧
    (∀ (buf : List Nat) (off : Nat) (f : String), off + 4 ≤ buf.length →
      off + 4 + leToNat ((buf.drop off).take 4) > buf.length →
      decodeLengthPrefixed buf off f =
        .error ("Buffer too short: cannot read " ++ f ++ " data (need " ++
          toString (leToNat ((buf.drop off).take 4)) ++ " bytes at offset " ++
          toString (off + 4) ++ ", have " ++
          toString (buf.length - (off + 4)) ++ ")")) ∧
    (∀ buf : List Nat, buf.length < 16 →
      decodeViaMessage buf =
        .error ("Buffer too short: cannot read " ++ "txId" ++ " (need " ++
          toString 16 ++ " bytes at offset " ++ toString 0 ++ ", have " ++
          toString (buf.length - 0) ++ ")")) ∧
    (∀ (txId sourceChainId destChainId : Nat)
      (sender recipient onChainData offChainData extra : List Nat),
      txId < 2 ^ 128 → sourceChainId < 2 ^ 64 → destChainId < 2 ^ 64 →
      sender.length < 2 ^ 32 → recipient.length < 2 ^ 32 →
      onChainData.length < 2 ^ 32 → offChainData.length < 2 ^ 32 →
      extra ≠ [] →
      decodeViaMessage (encodeViaMessageRaw txId sourceChainId destChainId
        sender recipient onChainData offChainData ++ extra) =
        .error ("Buffer has extra data: decoded " ++
          toString (encodeViaMessageRaw txId sourceChainId destChainId
            sender recipient onChainData offChainData).length ++
          " bytes but buffer is " ++
          toString ((encodeViaMessageRaw txId sourceChainId destChainId
            sender recipient onChainData offChainData).length + extra.length) ++
          " bytes")) := by
  refine ⟨?_, ?_, ?_, ?_, ?_, ?_⟩
  · intro buf m h
    simp only [decodeViaMessage] at h
    split at h
    · cases h
    · split at h
      · cases h
      · split at h
        · cases h
        · split at h
          · cases h
          · split at h
            · cases h
            · split at h
              · cases h
              · split at h
                · cases h
                · split at h
                  · cases h
                  · cases h
                    dsimp only
                    omega
  · intro buf off n f h
    unfold readBytes
    rw [if_pos h]
  · intro buf off f h
    unfold decodeLengthPrefixed
    rw [if_pos h]
  · intro buf off f h1 h2
    unfold decodeLengthPrefixed
    rw [if_neg (by omega)]
    dsimp only
    rw [if_pos h2]
  · intro buf h
    have hrb : readBytes buf 0 16 "txId" =
        .error ("Buffer too short: cannot read " ++ "txId" ++ " (need " ++
          toString 16 ++ " bytes at offset " ++ toString 0 ++ ", have " ++
          toString (buf.length - 0) ++ ")") := by
      unfold readBytes
      rw [if_pos (by omega)]
    simp only [decodeViaMessage, hrb]
  · intro txId sourceChainId destChainId sender recipient onChainData
      offChainData extra ht hs hd hse hre hon hoff hx
    exact (decodeViaMessage_raw_append txId sourceChainId destChainId
      sender recipient onChainData offChainData extra
      ht hs hd hse hre hon hoff).2 hx

/-- Witness for C3: the empty buffer is rejected as too short for txId, and a
one-byte extension of a concrete valid encoding is rejected as extra data. -/
theorem C3_exact_consumption_witness :
    decodeViaMessage [] =
      .error ("Buffer too short: cannot read " ++ "txId" ++ " (need " ++
        toString 16 ++ " bytes at offset " ++ toString 0 ++ ", have " ++
        toString (([] : List Nat).length - 0) ++ ")") ∧
    decodeViaMessage (encodeViaMessageRaw 0 0 0 [] [] [] [] ++ [0]) =
      .error ("Buffer has extra data: decoded " ++
        toString (encodeViaMessageRaw 0 0 0 [] [] [] []).length ++
        " bytes but buffer is " ++
        toString ((encodeViaMessageRaw 0 0 0 [] [] [] []).length +
          [(0 : Nat)].length) ++ " bytes") := by
  constructor
  · exact C3_exact_consumption.2.2.2.2.1 [] (by simp)
  · exact C3_exact_consumption.2.2.2.2.2 0 0 0 [] [] [] [] [0]
      (by norm_num) (by norm_num) (by norm_num)
      (by norm_num) (by norm_num) (by norm_num) (by norm_num)
      (by simp)

/-! ## Keccak-256 (the `js-sha3` `keccak_256` call in `src/signatures.ts`),
modelled concretely: 64-bit lanes are `Nat` reduced mod `2 ^ 64`, the state is
the list of 25 lanes in lane order, rate 136 bytes, original Keccak padding. -/

def M64 : Nat := 2 ^ 64

def rotl64 (x n : Nat) : Nat := ((x <<< n) % M64) ||| (x >>> (64 - n))

def not64 (x : Nat) : Nat := x ^^^ (M64 - 1)

def keccakRC : List Nat :=
  [0x0000000000000001, 0x0000000000008082, 0x800000000000808A] ++
  [0x8000000080008000, 0x000000000000808B, 0x0000000080000001] ++
  [0x8000000080008081, 0x8000000000008009, 0x000000000000008A] ++
  [0x0000000000000088, 0x0000000080008009, 0x000000008000000A] ++
  [0x000000008000808B, 0x800000000000008B, 0x8000000000008089] ++
  [0x8000000000008003, 0x8000000000008002, 0x8000000000000080] ++
  [0x000000000000800A, 0x800000008000000A, 0x8000000080008081] ++
  [0x8000000000008080, 0x0000000080000001, 0x8000000080008008]

def keccakRho : List Nat :=
  [0, 1, 62, 28, 27] ++ [36, 44, 6, 55, 20] ++ [3, 10, 43, 25, 39] ++
  [41, 45, 15, 21, 8] ++ [18, 2, 61, 56, 14]

def lane (s : List Nat) (i : Nat) : Nat := s.getD i 0

def theta (s : List Nat) : List Nat :=
  let c := (List.range 5).map (fun x =>
    lane s x ^^^ lane s (x + 5) ^^^ lane s (x + 10) ^^^ lane s (x + 15) ^^^
      lane s (x + 20))
  let d := (List.range 5).map (fun x =>
    c.getD ((x + 4) % 5) 0 ^^^ rotl64 (c.getD ((x + 1) % 5) 0) 1)
  (List.range 25).map (fun i => lane s i ^^^ d.getD (i % 5) 0)

def rhoPi (s : List Nat) : List Nat :=
  (List.range 25).foldl (fun b i =>
    b.set (i / 5 + 5 * ((2 * (i % 5) + 3 * (i / 5)) % 5))
      (rotl64 (lane s i) (keccakRho.getD i 0)))
    (List.replicate 25 0)

def chi (s : List Nat) : List Nat :=
  (List.range 25).map (fun i =>
    lane s i ^^^
      (not64 (lane s ((i % 5 + 1) % 5 + 5 * (i / 5))) &&&
        lane s ((i % 5 + 2) % 5 + 5 * (i / 5))))

def iotaRound (rc : Nat) (s : List Nat) : List Nat := s.set 0 (lane s 0 ^^^ rc)

def keccakF (s : List Nat) : List Nat :=
  keccakRC.foldl (fun st rc => iotaRound rc (chi (rhoPi (theta st)))) s

def keccakPad (msg : List Nat) : List Nat :=
  let r := 136 - msg.length % 136
  if r = 1 then msg ++ [0x81]
  else msg ++ [0x01] ++ List.replicate (r - 2) 0 ++ [0x80]

def chunks136 (l : List Nat) : List (List Nat) :=
  if h : l = [] then []
  else l.take 136 :: chunks136 (l.drop 136)
termination_by l.length
decreasing_by
  simp only [List.length_drop]
  have := List.length_pos.mpr h
  omega

def absorbBlock (st : List Nat) (block : List Nat) : List Nat :=
  keccakF ((List.range 25).map (fun i =>
    lane st i ^^^ (if i < 17 then leToNat ((block.drop (8 * i)).take 8) else 0)))

/-- Keccak-256 digest of a byte list: absorb the padded message, then squeeze
the first 32 bytes of the state (the first four lanes, little-endian).
Checked against the standard vectors: the digest of the empty message is
c5d2460186f7233c927e7db2dcc703c0e500b653ca82273b7bfad8045d85a470 and the
digest of "abc" is
4e03657aea45a94fc7d47ba826c8d667c0d1e6e33a64a036ec44f58fa12d6c45. -/
def keccak256 (msg : List Nat) : List Nat :=
  let st := (chunks136 (keccakPad msg)).foldl absorbBlock (List.replicate 25 0)
  natToLE 8 (lane st 0) ++ natToLE 8 (lane st 1) ++
    natToLE 8 (lane st 2) ++ natToLE 8 (lane st 3)

/-- `createMessageHash` (`src/signatures.ts` lines 35-58): encode the message
with the shared codec, then hash the canonical bytes with Keccak-256.  An
encoding failure propagates as the thrown `Error`. -/
def createMessageHash (txId sourceChainId destChainId : Nat)
    (sender recipient onChainData offChainData : List Nat) :
    Except String (List Nat) :=
  match encodeViaMessage txId sourceChainId destChainId
      sender recipient onChainData offChainData with
  | .error e => .error e
  | .ok encoded => .ok (keccak256 encoded)

/-- C4: `createMessageHash` is exactly the Keccak-256 digest of
`encodeViaMessage`, every digest is 32 bytes long, and the function is pure:
equal field values give identical digests. -/
theorem C4_hash_is_keccak_of_encoding :
    (∀ (txId sourceChainId destChainId : Nat)
      (sender recipient onChainData offChainData : List Nat),
      createMessageHash txId sourceChainId destChainId
        sender recipient onChainData offChainData =
        Except.map keccak256 (encodeViaMessage txId sourceChainId destChainId
          sender recipient onChainData offChainData)) ∧
    (∀ bytes : List Nat, (keccak256 bytes).length = 32) ∧
    (∀ (a b c : Nat) (p q r s : List Nat) (a2 b2 c2 : Nat)
      (p2 q2 r2 s2 : List Nat), a = a2 → b = b2 → c = c2 →
      p = p2 → q = q2 → r = r2 → s = s2 →
      createMessageHash a b c p q r s = createMessageHash a2 b2 c2 p2 q2 r2 s2) := by
  refine ⟨?_, ?_, ?_⟩
  · intro txId sourceChainId destChainId sender recipient onChainData offChainData
    cases h : encodeViaMessage txId sourceChainId destChainId
        sender recipient onChainData offChainData with
    | error e => simp [createMessageHash, h, Except.map]
    | ok enc => simp [createMessageHash, h, Except.map]
  · intro bytes
    simp [keccak256, natToLE_length]
  · intro a b c p q r s a2 b2 c2 p2 q2 r2 s2 ha hb hc hp hq hr hs
    rw [ha, hb, hc, hp, hq, hr, hs]

/-- Witness for C4: the digest law and determinism at concrete inputs. -/
theorem C4_hash_is_keccak_of_encoding_witness :
    createMessageHash 0 0 0 [] [] [] [] =
      Except.map keccak256 (encodeViaMessage 0 0 0 [] [] [] []) ∧
    createMessageHash 1 2 3 [4] [5] [6] [7] =
      createMessageHash 1 2 3 [4] [5] [6] [7] := by
  exact ⟨C4_hash_is_keccak_of_encoding.1 0 0 0 [] [] [] [],
    C4_hash_is_keccak_of_encoding.2.2 1 2 3 [4] [5] [6] [7]
      1 2 3 [4] [5] [6] [7] rfl rfl rfl rfl rfl rfl rfl⟩

/-! ## Deterministic address resolution (`src/pdas.ts`, `src/constants.ts`).
The external `PublicKey.findProgramAddressSync` is a pure function of the
ordered seed byte strings and the owner program id, so a derived address is
modelled by exactly that pair; program ids and wallet keys are opaque `Nat`
identifiers. -/

structure Pda where
  seeds : List (List Nat)
  programId : Nat
deriving DecidableEq

def findProgramAddressSync (seeds : List (List Nat)) (programId : Nat) : Pda :=
  ⟨seeds, programId⟩

/-- UTF-8 bytes of an ASCII seed tag (`Buffer.from("...")`). -/
def strBytes (s : String) : List Nat := s.toList.map Char.toNat

def CHAIN_ID_BYTES : Nat := 8
def TX_ID_BYTES : Nat := 16

inductive RegistryType where
  | via
  | chain
  | project
deriving DecidableEq

/-- `registryTypeToDiscriminant` (`pdas.ts` lines 242-250). -/
def registryTypeToDiscriminant : RegistryType → Nat
  | .via => 0
  | .chain => 1
  | .project => 2

/-- `ViaLabsPDAs.getGatewayPda`: seeds `["gateway", chainId (8B LE)]`. -/
def getGatewayPda (programId chainId : Nat) : Pda :=
  findProgramAddressSync
    [strBytes "gateway", natToLE CHAIN_ID_BYTES chainId] programId

/-- `ViaLabsPDAs.getSignerRegistryPda`: seeds
`["signer_registry", discriminant (1B), chainId (8B LE)]`. -/
def getSignerRegistryPda (programId : Nat) (registryType : RegistryType)
    (chainId : Nat) : Pda :=
  findProgramAddressSync
    [strBytes "signer_registry", [registryTypeToDiscriminant registryType],
      natToLE CHAIN_ID_BYTES chainId] programId

/-- `ViaLabsPDAs.getCounterPda`: seeds `["counter", sourceChainId (8B LE)]`. -/
def getCounterPda (programId sourceChainId : Nat) : Pda :=
  findProgramAddressSync
    [strBytes "counter", natToLE CHAIN_ID_BYTES sourceChainId] programId

/-- `ViaLabsPDAs.getTxIdPda`: seeds
`["tx", sourceChainId (8B LE), txId (16B LE)]`. -/
def getTxIdPda (programId sourceChainId txId : Nat) : Pda :=
  findProgramAddressSync
    [strBytes "tx", natToLE CHAIN_ID_BYTES sourceChainId,
      natToLE TX_ID_BYTES txId] programId

/-- `deriveDecodedMessagePda` (`pdas.ts` lines 455-470): seeds
`["decoded", txId (8B LE)]` on the client program.  The external call also
returns a bump byte, which is a function of the same inputs and is dropped
here. -/
def deriveDecodedMessagePda (txId clientProgramId : Nat) : Pda :=
  findProgramAddressSync [strBytes "decoded", natToLE 8 txId] clientProgramId

/-- The DecodedMessage derivation inside
`ViaLabsSDK.processMessageWithSignaturesV0` (`sdk.ts` lines 565-571):
`txId.toArrayLike(Buffer, le, 16)` copied into a 16-byte buffer, so the seeds
are `["decoded", txId (16B LE)]` on the client program. -/
def processMessageV0DecodedMessagePda (txId clientProgramId : Nat) : Pda :=
  findProgramAddressSync [strBytes "decoded", natToLE 16 txId] clientProgramId

/-- C9: each resolver passes exactly the fixed seed grammar — gateway
`["gateway", chainId 8B LE]`, signer registry `["signer_registry",
discriminant byte, chainId 8B LE]` with via/chain/project mapped to 0/1/2,
tx `["tx", sourceChainId 8B LE, txId 16B LE]` — and equal inputs always
resolve to identical addresses. -/
theorem C9_address_resolution :
    (∀ programId chainId : Nat, chainId < 2 ^ 64 →
      getGatewayPda programId chainId =
        ⟨[[103, 97, 116, 101, 119, 97, 121], natToLE 8 chainId], programId⟩) ∧
    (∀ (programId chainId : Nat) (rt : RegistryType), chainId < 2 ^ 64 →
      getSignerRegistryPda programId rt chainId =
        ⟨[[115, 105, 103, 110, 101, 114, 95, 114, 101, 103, 105, 115, 116,
            114, 121],
          [registryTypeToDiscriminant rt], natToLE 8 chainId], programId⟩) ∧
    registryTypeToDiscriminant .via = 0 ∧
    registryTypeToDiscriminant .chain = 1 ∧
    registryTypeToDiscriminant .project = 2 ∧
    (∀ programId sourceChainId txId : Nat,
      sourceChainId < 2 ^ 64 → txId < 2 ^ 128 →
      getTxIdPda programId sourceChainId txId =
        ⟨[[116, 120], natToLE 8 sourceChainId, natToLE 16 txId], programId⟩) ∧
    (∀ programId c1 c2 : Nat, c1 = c2 →
      getGatewayPda programId c1 = getGatewayPda programId c2) ∧
    (∀ (programId : Nat) (r1 r2 : RegistryType) (c1 c2 : Nat),
      r1 = r2 → c1 = c2 →
      getSignerRegistryPda programId r1 c1 = getSignerRegistryPda programId r2 c2) ∧
    (∀ programId s1 s2 t1 t2 : Nat, s1 = s2 → t1 = t2 →
      getTxIdPda programId s1 t1 = getTxIdPda programId s2 t2) := by
  refine ⟨?_, ?_, rfl, rfl, rfl, ?_, ?_, ?_, ?_⟩
  · intro programId chainId _
    simp only [getGatewayPda, findProgramAddressSync, CHAIN_ID_BYTES]
    rw [show strBytes "gateway" = [103, 97, 116, 101, 119, 97, 121] from by decide]
  · intro programId chainId rt _
    simp only [getSignerRegistryPda, findProgramAddressSync, CHAIN_ID_BYTES]
    rw [show strBytes "signer_registry" =
      [115, 105, 103, 110, 101, 114, 95, 114, 101, 103, 105, 115, 116, 114, 121]
      from by decide]
  · intro programId sourceChainId txId _ _
    simp only [getTxIdPda, findProgramAddressSync, CHAIN_ID_BYTES, TX_ID_BYTES]
    rw [show strBytes "tx" = [116, 120] from by decide]
  · intro programId c1 c2 h
    rw [h]
  · intro programId r1 r2 c1 c2 hr hc
    rw [hr, hc]
  · intro programId s1 s2 t1 t2 hs ht
    rw [hs, ht]

/-- Witness for C9: the seed grammar at the concrete chain id 43113, registry
type `chain` and transaction id 7. -/
theorem C9_address_resolution_witness :
    getGatewayPda 5 43113 =
      ⟨[[103, 97, 116, 101, 119, 97, 121], natToLE 8 43113], 5⟩ ∧
    getSignerRegistryPda 5 .chain 43113 =
      ⟨[[115, 105, 103, 110, 101, 114, 95, 114, 101, 103, 105, 115, 116,
          114, 121],
        [registryTypeToDiscriminant .chain], natToLE 8 43113], 5⟩ ∧
    getTxIdPda 5 43113 7 =
      ⟨[[116, 120], natToLE 8 43113, natToLE 16 7], 5⟩ := by
  refine ⟨?_, ?_, ?_⟩
  · exact C9_address_resolution.1 5 43113 (by norm_num)
  · exact C9_address_resolution.2.1 5 43113 .chain (by norm_num)
  · exact C9_address_resolution.2.2.2.2.2.1 5 43113 7 (by norm_num) (by norm_num)

/-- C10: the exported helper and the internal derivation disagree — the
helper passes `["decoded", txId as 8-byte LE]` while
`processMessageWithSignaturesV0` passes `["decoded", txId as 16-byte LE]`,
so for every transaction id the two seed sequences (and hence the derived
addresses) differ. -/
theorem C10_decoded_pda_mismatch :
    deriveDecodedMessagePda 1 0 ≠ processMessageV0DecodedMessagePda 1 0 ∧
    (deriveDecodedMessagePda 1 0).seeds = [strBytes "decoded", natToLE 8 1] ∧
    (processMessageV0DecodedMessagePda 1 0).seeds =
      [strBytes "decoded", natToLE 16 1] ∧
    (∀ txId clientProgramId : Nat,
      deriveDecodedMessagePda txId clientProgramId ≠
        processMessageV0DecodedMessagePda txId clientProgramId) := by
  have hgen : ∀ txId clientProgramId : Nat,
      deriveDecodedMessagePda txId clientProgramId ≠
        processMessageV0DecodedMessagePda txId clientProgramId := by
    intro txId clientProgramId h
    have hseeds := congrArg Pda.seeds h
    simp only [deriveDecodedMessagePda, processMessageV0DecodedMessagePda,
      findProgramAddressSync] at hseeds
    have hlen := congrArg (fun l => (l.getD 1 []).length) hseeds
    simp [natToLE_length] at hlen
  exact ⟨hgen 1 0, rfl, rfl, hgen⟩

/-! ## Signature assembly (`src/signatures.ts`, `src/sdk.ts`).  A built
transaction is modelled by its ordered instruction list; the account metas
each main instruction carries are the addresses resolved by the `Pda`
functions above and are not part of the instruction payload model. -/

structure MessageSignature where
  signature : List Nat
  signer : Nat
deriving DecidableEq

inductive Instruction where
  | ed25519 (signature : List Nat) (publicKey : Nat) (message : List Nat)
  | createTxPda (txId sourceChainId destChainId : Nat)
      (sender recipient onChainData offChainData : List Nat)
  | processMessage (txId sourceChainId destChainId : Nat)
      (sender recipient onChainData offChainData : List Nat)
deriving DecidableEq

/-- `createEd25519Instruction` (`signatures.ts` lines 64-75): one Ed25519
verification unit over (signature, public key, message). -/
def createEd25519Instruction (signature : List Nat) (publicKey : Nat)
    (message : List Nat) : Instruction :=
  .ed25519 signature publicKey message

/-- The instruction list built by `ViaLabsSDK.createTxPdaWithSignatures`
(`sdk.ts` lines 334-377): the message hash is computed, one Ed25519
instruction is added per supplied signature in order, then the single main
`createTxPda` instruction is added last.  No signature-count validation is
performed on this Standard path. -/
def createTxPdaWithSignaturesIxs (txId sourceChainId destChainId : Nat)
    (sender recipient onChainData offChainData : List Nat)
    (signatures : List MessageSignature) : Except String (List Instruction) :=
  match createMessageHash txId sourceChainId destChainId
      sender recipient onChainData offChainData with
  | .error e => .error e
  | .ok messageHash =>
    .ok ((signatures.map fun sig =>
        createEd25519Instruction sig.signature sig.signer messageHash) ++
      [Instruction.createTxPda txId sourceChainId destChainId
        sender recipient onChainData offChainData])

/-- The instruction list built by `ViaLabsSDK.processMessageWithSignatures`
(`sdk.ts` lines 384-443); same Standard shape with the `processMessage` main
instruction. -/
def processMessageWithSignaturesIxs (txId sourceChainId destChainId : Nat)
    (sender recipient onChainData offChainData : List Nat)
    (signatures : List MessageSignature) : Except String (List Instruction) :=
  match createMessageHash txId sourceChainId destChainId
      sender recipient onChainData offChainData with
  | .error e => .error e
  | .ok messageHash =>
    .ok ((signatures.map fun sig =>
        createEd25519Instruction sig.signature sig.signer messageHash) ++
      [Instruction.processMessage txId sourceChainId destChainId
        sender recipient onChainData offChainData])

def MAX_SIGNATURES_V0 : Nat := 3

def tooManySignaturesError (n : Nat) : String :=
  "Too many signatures for V0 transaction: " ++ toString n ++
    " provided, maximum " ++ toString MAX_SIGNATURES_V0 ++ " supported. " ++
    "V0 transactions have a 1232 byte " ++
    "limit, and each Ed25519 instruction uses ~200 bytes."

/-- The instruction list built by `ViaLabsSDK.createTxPdaWithSignaturesV0`
(`sdk.ts` lines 449-505): the signature count is validated against the V0 cap
and against emptiness before anything is built, then the same ordered
assembly as the Standard path is produced. -/
def createTxPdaWithSignaturesV0Ixs (txId sourceChainId destChainId : Nat)
    (sender recipient onChainData offChainData : List Nat)
    (signatures : List MessageSignature) : Except String (List Instruction) :=
  if signatures.length > MAX_SIGNATURES_V0 then
    .error (tooManySignaturesError signatures.length)
  else if signatures.length = 0 then
    .error "At least one signature is required"
  else
    match createMessageHash txId sourceChainId destChainId
        sender recipient onChainData offChainData with
    | .error e => .error e
    | .ok messageHash =>
      .ok ((signatures.map fun sig =>
          createEd25519Instruction sig.signature sig.signer messageHash) ++
        [Instruction.createTxPda txId sourceChainId destChainId
          sender recipient onChainData offChainData])

/-- The instruction list built by `ViaLabsSDK.processMessageWithSignaturesV0`
(`sdk.ts` lines 513-649); same V0 validations, `processMessage` main
instruction. -/
def processMessageWithSignaturesV0Ixs (txId sourceChainId destChainId : Nat)
    (sender recipient onChainData offChainData : List Nat)
    (signatures : List MessageSignature) : Except String (List Instruction) :=
  if signatures.length > MAX_SIGNATURES_V0 then
    .error (tooManySignaturesError signatures.length)
  else if signatures.length = 0 then
    .error "At least one signature is required"
  else
    match createMessageHash txId sourceChainId destChainId
        sender recipient onChainData offChainData with
    | .error e => .error e
    | .ok messageHash =>
      .ok ((signatures.map fun sig =>
          createEd25519Instruction sig.signature sig.signer messageHash) ++
        [Instruction.processMessage txId sourceChainId destChainId
          sender recipient onChainData offChainData])

theorem createMessageHash_ok_raw (txId sourceChainId destChainId : Nat)
    (sender recipient onChainData offChainData : List Nat)
    (hse : sender.length ≤ 64) (hre : recipient.length ≤ 64)
    (hon : onChainData.length ≤ 1024) (hoff : offChainData.length ≤ 1024) :
    createMessageHash txId sourceChainId destChainId
      sender recipient onChainData offChainData =
      .ok (keccak256 (encodeViaMessageRaw txId sourceChainId destChainId
        sender recipient onChainData offChainData)) := by
  unfold createMessageHash
  rw [encodeViaMessage_ok txId sourceChainId destChainId
    sender recipient onChainData offChainData hse hre hon hoff]

theorem createMessageHash_ok_val (txId sourceChainId destChainId : Nat)
    (sender recipient onChainData offChainData h : List Nat)
    (hok : createMessageHash txId sourceChainId destChainId
      sender recipient onChainData offChainData = .ok h) :
    h = keccak256 (encodeViaMessageRaw txId sourceChainId destChainId
      sender recipient onChainData offChainData) := by
  unfold createMessageHash at hok
  cases henc : encodeViaMessage txId sourceChainId destChainId
      sender recipient onChainData offChainData with
  | error e => rw [henc] at hok; cases hok
  | ok enc =>
    rw [henc] at hok
    cases hok
    unfold encodeViaMessage at henc
    split_ifs at henc <;> cases henc
    rfl

/-- C5: every signature-assembly operation, Standard and Compact, places one
Ed25519 instruction per supplied signature before the single main
instruction, in exactly the order the signatures were supplied; in particular
for `[a, b]` the unit of `a` precedes the unit of `b`, and swapping the input
order swaps the output order.  (For the V0 variants the equation is stated
for every successfully built list, the count validations being C7/C8.) -/
theorem C5_signer_ordering (txId sourceChainId destChainId : Nat)
    (sender recipient onChainData offChainData : List Nat)
    (hse : sender.length ≤ 64) (hre : recipient.length ≤ 64)
    (hon : onChainData.length ≤ 1024) (hoff : offChainData.length ≤ 1024) :
    (∀ signatures : List MessageSignature,
      createTxPdaWithSignaturesIxs txId sourceChainId destChainId
        sender recipient onChainData offChainData signatures =
        .ok ((signatures.map fun sig =>
            Instruction.ed25519 sig.signature sig.signer
              (keccak256 (encodeViaMessageRaw txId sourceChainId destChainId
                sender recipient onChainData offChainData))) ++
          [Instruction.createTxPda txId sourceChainId destChainId
            sender recipient onChainData offChainData])) ∧
    (∀ signatures : List MessageSignature,
      processMessageWithSignaturesIxs txId sourceChainId destChainId
        sender recipient onChainData offChainData signatures =
        .ok ((signatures.map fun sig =>
            Instruction.ed25519 sig.signature sig.signer
              (keccak256 (encodeViaMessageRaw txId sourceChainId destChainId
                sender recipient onChainData offChainData))) ++
          [Instruction.processMessage txId sourceChainId destChainId
            sender recipient onChainData offChainData])) ∧
    (∀ (signatures : List MessageSignature) (l : List Instruction),
      createTxPdaWithSignaturesV0Ixs txId sourceChainId destChainId
        sender recipient onChainData offChainData signatures = .ok l →
      l = (signatures.map fun sig =>
          Instruction.ed25519 sig.signature sig.signer
            (keccak256 (encodeViaMessageRaw txId sourceChainId destChainId
              sender recipient onChainData offChainData))) ++
        [Instruction.createTxPda txId sourceChainId destChainId
          sender recipient onChainData offChainData]) ∧
    (∀ (signatures : List MessageSignature) (l : List Instruction),
      processMessageWithSignaturesV0Ixs txId sourceChainId destChainId
        sender recipient onChainData offChainData signatures = .ok l →
      l = (signatures.map fun sig =>
          Instruction.ed25519 sig.signature sig.signer
            (keccak256 (encodeViaMessageRaw txId sourceChainId destChainId
              sender recipient onChainData offChainData))) ++
        [Instruction.processMessage txId sourceChainId destChainId
          sender recipient onChainData offChainData]) ∧
    (∀ a b : MessageSignature,
      createTxPdaWithSignaturesIxs txId sourceChainId destChainId
        sender recipient onChainData offChainData [a, b] =
        .ok [Instruction.ed25519 a.signature a.signer
            (keccak256 (encodeViaMessageRaw txId sourceChainId destChainId
              sender recipient onChainData offChainData)),
          Instruction.ed25519 b.signature b.signer
            (keccak256 (encodeViaMessageRaw txId sourceChainId destChainId
              sender recipient onChainData offChainData)),
          Instruction.createTxPda txId sourceChainId destChainId
            sender recipient onChainData offChainData] ∧
      createTxPdaWithSignaturesIxs txId sourceChainId destChainId
        sender recipient onChainData offChainData [b, a] =
        .ok [Instruction.ed25519 b.signature b.signer
            (keccak256 (encodeViaMessageRaw txId sourceChainId destChainId
              sender recipient onChainData offChainData)),
          Instruction.ed25519 a.signature a.signer
            (keccak256 (encodeViaMessageRaw txId sourceChainId destChainId
              sender recipient onChainData offChainData)),
          Instruction.createTxPda txId sourceChainId destChainId
            sender recipient onChainData offChainData]) := by
  have hmh := createMessageHash_ok_raw txId sourceChainId destChainId
    sender recipient onChainData offChainData hse hre hon hoff
  refine ⟨?_, ?_, ?_, ?_, ?_⟩
  · intro signatures
    simp [createTxPdaWithSignaturesIxs, hmh, createEd25519Instruction]
  · intro signatures
    simp [processMessageWithSignaturesIxs, hmh, createEd25519Instruction]
  · intro signatures l hl
    unfold createTxPdaWithSignaturesV0Ixs at hl
    split_ifs at hl <;> try cases hl
    rw [hmh] at hl
    cases hl
    simp [createEd25519Instruction]
  · intro signatures l hl
    unfold processMessageWithSignaturesV0Ixs at hl
    split_ifs at hl <;> try cases hl
    rw [hmh] at hl
    cases hl
    simp [createEd25519Instruction]
  · intro a b
    constructor
    · simp [createTxPdaWithSignaturesIxs, hmh, createEd25519Instruction]
    · simp [createTxPdaWithSignaturesIxs, hmh, createEd25519Instruction]

/-- Witness for C5: the ordering at two concrete signatures over the empty
message fields. -/
theorem C5_signer_ordering_witness :
    createTxPdaWithSignaturesIxs 0 0 0 [] [] [] []
      [⟨[1], 10⟩, ⟨[2], 20⟩] =
      .ok [Instruction.ed25519 [1] 10
          (keccak256 (encodeViaMessageRaw 0 0 0 [] [] [] [])),
        Instruction.ed25519 [2] 20
          (keccak256 (encodeViaMessageRaw 0 0 0 [] [] [] [])),
        Instruction.createTxPda 0 0 0 [] [] [] []] := by
  have h := ((C5_signer_ordering 0 0 0 [] [] [] []
    (by simp) (by simp) (by simp) (by simp)).2.2.2.2
    ⟨[1], 10⟩ ⟨[2], 20⟩).1
  simpa using h

/-- C7: under the Compact (V0) variant, four or more signatures are rejected
with the cap-exceeded error before anything is built — for every field
assignment, valid or not — while a list of exactly three signatures passes
the count validation and (for valid fields) the build succeeds. -/
theorem C7_v0_signature_cap :
    (∀ (txId sourceChainId destChainId : Nat)
      (sender recipient onChainData offChainData : List Nat)
      (signatures : List MessageSignature), 4 ≤ signatures.length →
      createTxPdaWithSignaturesV0Ixs txId sourceChainId destChainId
        sender recipient onChainData offChainData signatures =
        .error (tooManySignaturesError signatures.length) ∧
      processMessageWithSignaturesV0Ixs txId sourceChainId destChainId
        sender recipient onChainData offChainData signatures =
        .error (tooManySignaturesError signatures.length)) ∧
    (∀ (txId sourceChainId destChainId : Nat)
      (sender recipient onChainData offChainData : List Nat)
      (signatures : List MessageSignature), signatures.length = 3 →
      sender.length ≤ 64 → recipient.length ≤ 64 →
      onChainData.length ≤ 1024 → offChainData.length ≤ 1024 →
      (∃ l, createTxPdaWithSignaturesV0Ixs txId sourceChainId destChainId
        sender recipient onChainData offChainData signatures = .ok l) ∧
      (∃ l, processMessageWithSignaturesV0Ixs txId sourceChainId destChainId
        sender recipient onChainData offChainData signatures = .ok l)) := by
  constructor
  · intro txId sourceChainId destChainId sender recipient onChainData
      offChainData signatures hlen
    have hgt : signatures.length > MAX_SIGNATURES_V0 := by
      simp only [MAX_SIGNATURES_V0]; omega
    constructor
    · unfold createTxPdaWithSignaturesV0Ixs
      rw [if_pos hgt]
    · unfold processMessageWithSignaturesV0Ixs
      rw [if_pos hgt]
  · intro txId sourceChainId destChainId sender recipient onChainData
      offChainData signatures hlen hse hre hon hoff
    have hngt : ¬ signatures.length > MAX_SIGNATURES_V0 := by
      simp only [MAX_SIGNATURES_V0]; omega
    have hne : ¬ signatures.length = 0 := by omega
    have hmh := createMessageHash_ok_raw txId sourceChainId destChainId
      sender recipient onChainData offChainData hse hre hon hoff
    constructor
    · refine ⟨(signatures.map fun sig => createEd25519Instruction
          sig.signature sig.signer (keccak256 (encodeViaMessageRaw txId
            sourceChainId destChainId sender recipient onChainData
            offChainData))) ++
        [Instruction.createTxPda txId sourceChainId destChainId
          sender recipient onChainData offChainData], ?_⟩
      unfold createTxPdaWithSignaturesV0Ixs
      rw [if_neg hngt, if_neg hne, hmh]
    · refine ⟨(signatures.map fun sig => createEd25519Instruction
          sig.signature sig.signer (keccak256 (encodeViaMessageRaw txId
            sourceChainId destChainId sender recipient onChainData
            offChainData))) ++
        [Instruction.processMessage txId sourceChainId destChainId
          sender recipient onChainData offChainData], ?_⟩
      unfold processMessageWithSignaturesV0Ixs
      rw [if_neg hngt, if_neg hne, hmh]

/-- Witness for C7: four concrete signatures are rejected with the cap error
and three concrete signatures build successfully. -/
theorem C7_v0_signature_cap_witness :
    (createTxPdaWithSignaturesV0Ixs 0 0 0 [] [] [] []
        [⟨[], 0⟩, ⟨[], 0⟩, ⟨[], 0⟩, ⟨[], 0⟩] =
      .error (tooManySignaturesError
        ([⟨[], 0⟩, ⟨[], 0⟩, ⟨[], 0⟩, ⟨[], 0⟩] :
          List MessageSignature).length)) ∧
    (∃ l, createTxPdaWithSignaturesV0Ixs 0 0 0 [] [] [] []
        [⟨[], 0⟩, ⟨[], 0⟩, ⟨[], 0⟩] = .ok l) := by
  constructor
  · exact (C7_v0_signature_cap.1 0 0 0 [] [] [] []
      [⟨[], 0⟩, ⟨[], 0⟩, ⟨[], 0⟩, ⟨[], 0⟩] (by simp)).1
  · exact ((C7_v0_signature_cap.2 0 0 0 [] [] [] []
      [⟨[], 0⟩, ⟨[], 0⟩, ⟨[], 0⟩] (by simp)
      (by simp) (by simp) (by simp) (by simp)).1)

/-- Counterexample to C8 as stated: the Standard operations perform no
emptiness validation — with an empty signature list
`createTxPdaWithSignatures` and `processMessageWithSignatures` build and
return the main instruction alone instead of failing. -/
theorem C8_counterexample :
    createTxPdaWithSignaturesIxs 0 0 0 [] [] [] [] [] =
      .ok [Instruction.createTxPda 0 0 0 [] [] [] []] ∧
    processMessageWithSignaturesIxs 0 0 0 [] [] [] [] [] =
      .ok [Instruction.processMessage 0 0 0 [] [] [] []] := by
  have hmh := createMessageHash_ok_raw 0 0 0 [] [] [] []
    (by simp) (by simp) (by simp) (by simp)
  constructor
  · simp [createTxPdaWithSignaturesIxs, hmh]
  · simp [processMessageWithSignaturesIxs, hmh]

/-- C8 amended: only the Compact (V0) operations reject an empty signature
list (before anything is built, for every field assignment); the Standard
operations perform no emptiness check and build the main instruction with
zero verification instructions. -/
theorem C8_empty_signatures_amended :
    (∀ (txId sourceChainId destChainId : Nat)
      (sender recipient onChainData offChainData : List Nat),
      createTxPdaWithSignaturesV0Ixs txId sourceChainId destChainId
        sender recipient onChainData offChainData [] =
        .error "At least one signature is required" ∧
      processMessageWithSignaturesV0Ixs txId sourceChainId destChainId
        sender recipient onChainData offChainData [] =
        .error "At least one signature is required") ∧
    (∀ (txId sourceChainId destChainId : Nat)
      (sender recipient onChainData offChainData : List Nat),
      sender.length ≤ 64 → recipient.length ≤ 64 →
      onChainData.length ≤ 1024 → offChainData.length ≤ 1024 →
      createTxPdaWithSignaturesIxs txId sourceChainId destChainId
        sender recipient onChainData offChainData [] =
        .ok [Instruction.createTxPda txId sourceChainId destChainId
          sender recipient onChainData offChainData] ∧
      processMessageWithSignaturesIxs txId sourceChainId destChainId
        sender recipient onChainData offChainData [] =
        .ok [Instruction.processMessage txId sourceChainId destChainId
          sender recipient onChainData offChainData]) := by
  constructor
  · intro txId sourceChainId destChainId sender recipient onChainData
      offChainData
    constructor
    · simp [createTxPdaWithSignaturesV0Ixs, MAX_SIGNATURES_V0]
    · simp [processMessageWithSignaturesV0Ixs, MAX_SIGNATURES_V0]
  · intro txId sourceChainId destChainId sender recipient onChainData
      offChainData hse hre hon hoff
    have hmh := createMessageHash_ok_raw txId sourceChainId destChainId
      sender recipient onChainData offChainData hse hre hon hoff
    constructor
    · simp [createTxPdaWithSignaturesIxs, hmh]
    · simp [processMessageWithSignaturesIxs, hmh]

/-- Witness for the amended C8 at concrete inputs. -/
theorem C8_empty_signatures_amended_witness :
    createTxPdaWithSignaturesV0Ixs 1 2 3 [4] [5] [6] [7] [] =
      .error "At least one signature is required" ∧
    createTxPdaWithSignaturesIxs 1 2 3 [4] [5] [6] [7] [] =
      .ok [Instruction.createTxPda 1 2 3 [4] [5] [6] [7]] := by
  constructor
  · exact (C8_empty_signatures_amended.1 1 2 3 [4] [5] [6] [7]).1
  · exact (C8_empty_signatures_amended.2 1 2 3 [4] [5] [6] [7]
      (by simp) (by simp) (by simp) (by simp)).1

/-! ## Retry policy (`ViaLabsSDK.executeWithRetry`, `sdk.ts` lines 110-153).
An attempt is modelled as a function from the attempt number (1-based) to the
attempt outcome; the wrapper result records the surfaced outcome, the list of
backoff sleeps (in ms, in order) and how many attempts ran. -/

def nonRetryableErrors : List String :=
  ["already in use", "invalid", "insufficient", "TxIdAlreadyExists",
   "TxIdNotFound", "SystemDisabled", "SignerNotRegistered"]

def lowerChars (s : String) : List Char := s.toList.map Char.toLower

def startsWithChars : List Char → List Char → Bool
  | _, [] => true
  | [], _ :: _ => false
  | a :: as, b :: bs => a == b && startsWithChars as bs

def containsChars : List Char → List Char → Bool
  | [], needle => needle.isEmpty
  | a :: as, needle => startsWithChars (a :: as) needle || containsChars as needle

/-- `error.message.toLowerCase().includes(err.toLowerCase())`. -/
def includesCI (message pat : String) : Bool :=
  containsChars (lowerChars message) (lowerChars pat)

def isNonRetryable (message : String) : Bool :=
  nonRetryableErrors.any (fun err => includesCI message err)

structure RetryResult (α : Type) where
  outcome : Except String α
  sleeps : List Nat
  attempts : Nat

/-- The retry loop: `remaining` counts the loop iterations still allowed
(`maxRetries - attempt + 1` on entry).  Mirrors the `for` loop of
`executeWithRetry`: a success returns; a non-retryable failure rethrows at
once with the operation name prefixed; a retryable failure sleeps
`1000 * 2 ^ (attempt - 1)` ms and retries while `attempt < maxRetries`;
leaving the loop surfaces the exhausted-retries error wrapping the last
failure message. -/
def executeWithRetryAux (name : String) (op : Nat → Except String α)
    (maxRetries attempt : Nat) (lastError : Option String)
    (sleeps : List Nat) : Nat → RetryResult α
  | 0 =>
    ⟨.error (name ++ " failed after " ++ toString maxRetries ++
      " attempts: " ++ lastError.getD "undefined"), sleeps, attempt - 1⟩
  | remaining + 1 =>
    match op attempt with
    | .ok v => ⟨.ok v, sleeps, attempt⟩
    | .error e =>
      if isNonRetryable e then
        ⟨.error (name ++ " failed: " ++ e), sleeps, attempt⟩
      else if attempt < maxRetries then
        executeWithRetryAux name op maxRetries (attempt + 1) (some e)
          (sleeps ++ [1000 * 2 ^ (attempt - 1)]) remaining
      else
        ⟨.error (name ++ " failed after " ++ toString maxRetries ++
          " attempts: " ++ e), sleeps, attempt⟩

/-- `executeWithRetry`; the source defaults `maxRetries` to 3. -/
def executeWithRetry (name : String) (op : Nat → Except String α)
    (maxRetries : Nat) : RetryResult α :=
  executeWithRetryAux name op maxRetries 1 none [] maxRetries

/-- C6: a first-attempt failure whose message contains `"TxIdNotFound"`
(case-insensitively — like any entry of the fixed non-retryable vocabulary)
is rethrown immediately after that single attempt with no sleeps; a failure
stream of retryable errors is retried with backoff sleeps of 1000 ms then
2000 ms up to the default cap of 3 attempts, after which the surfaced error
names the attempt count and wraps the last underlying message. -/
theorem C6_retry_policy {α : Type} :
    (∀ msg : String, includesCI msg "TxIdNotFound" = true →
      isNonRetryable msg = true) ∧
    (∀ (name : String) (op : Nat → Except String α) (msg : String),
      op 1 = .error msg → isNonRetryable msg = true →
      executeWithRetry name op 3 =
        ⟨.error (name ++ " failed: " ++ msg), [], 1⟩) ∧
    (∀ (name : String) (op : Nat → Except String α) (m : Nat → String),
      (∀ i, op i = .error (m i)) → (∀ i, isNonRetryable (m i) = false) →
      executeWithRetry name op 3 =
        ⟨.error (name ++ " failed after " ++ toString 3 ++
          " attempts: " ++ m 3), [1000, 2000], 3⟩) := by
  refine ⟨?_, ?_, ?_⟩
  · intro msg h
    simp only [isNonRetryable, nonRetryableErrors, List.any_eq_true]
    exact ⟨"TxIdNotFound", by simp, h⟩
  · intro name op msg hop hnr
    unfold executeWithRetry
    show executeWithRetryAux name op 3 1 none [] (2 + 1) = _
    simp only [executeWithRetryAux, hop, hnr, if_pos]
  · intro name op m hop hnr
    unfold executeWithRetry
    show executeWithRetryAux name op 3 1 none [] (2 + 1) = _
    simp only [executeWithRetryAux, hop 1, hnr 1, Bool.false_eq_true,
      if_false, if_pos (by omega : 1 < 3)]
    show executeWithRetryAux name op 3 2 (some (m 1)) [1000 * 2 ^ (1 - 1)]
      (1 + 1) = _
    simp only [executeWithRetryAux, hop 2, hnr 2, Bool.false_eq_true,
      if_false, if_pos (by omega : 2 < 3)]
    show executeWithRetryAux name op 3 3 (some (m 2))
      ([1000 * 2 ^ (1 - 1)] ++ [1000 * 2 ^ (2 - 1)]) (0 + 1) = _
    simp only [executeWithRetryAux, hop 3, hnr 3, Bool.false_eq_true,
      if_false, if_neg (by omega : ¬ 3 < 3)]
    norm_num

/-- Witness for C6: a concrete `"TxIdNotFound"` failure is surfaced after one
attempt with no sleeps, and a concrete `"timeout"` failure stream is retried
to exhaustion with sleeps 1000 and 2000. -/
theorem C6_retry_policy_witness :
    executeWithRetry "createTxPda" (fun _ => (.error "TxIdNotFound" :
        Except String Nat)) 3 =
      ⟨.error ("createTxPda" ++ " failed: " ++ "TxIdNotFound"), [], 1⟩ ∧
    executeWithRetry "createTxPda" (fun _ => (.error "timeout" :
        Except String Nat)) 3 =
      ⟨.error ("createTxPda" ++ " failed after " ++ toString 3 ++
        " attempts: " ++ "timeout"), [1000, 2000], 3⟩ := by
  constructor
  · exact (@C6_retry_policy Nat).2.1 "createTxPda"
      (fun _ => (.error "TxIdNotFound" : Except String Nat)) "TxIdNotFound" rfl
      ((@C6_retry_policy Nat).1 "TxIdNotFound" (by decide))
  · have hnr : isNonRetryable "timeout" = false := by decide
    exact (@C6_retry_policy Nat).2.2 "createTxPda"
      (fun _ => (.error "timeout" : Except String Nat)) (fun _ => "timeout")
      (fun _ => rfl) (fun _ => hnr)

end ViaLabs
